import Mathlib

/-!
Verification development for the notebook
`code/2_MachinePrecision/jupyter/2_FloatingPointPrecision.ipynb`.

The notebook demonstrates floating-point pitfalls in four examples:
float equality testing, catastrophic cancellation, quadratic-root
instability, and a finite-difference derivative sweep.

Two embeddings are used:
* `FloatModel` — an exact model of IEEE-754 binary64 arithmetic as dyadic
  rationals with round-to-nearest, ties-to-even.  All values arising in the
  notebook lie well inside the normal range of binary64 (magnitudes between
  roughly 10^-40 and 10^8), so no subnormal, overflow, or NaN handling is
  required; the rounding function below is exact binary64 rounding on that
  range.  Python's `math.sqrt` and float `+ - * /` are correctly rounded,
  and `10**i` for the exponents used produces the correctly rounded value
  of 10^i, so every notebook value is reproduced exactly as a rational.
* `Exact` — the real-arithmetic reading used by the claims that speak of
  exact arithmetic (the quadratic-root identities, the cancellation
  identity, the truncation error of the finite difference).
-/

attribute [local semireducible] Rat.mul Rat.add Rat.sub Rat.inv Rat.ofScientific

set_option maxRecDepth 100000

namespace FloatModel

/-- Number of bits of `n` (fuel-driven so that it reduces in the kernel):
`natBits fuel n = ⌈log2 (n+1)⌉`, i.e. 0 for 0, and `k` when
`2^(k-1) ≤ n < 2^k`.  Fuel 320 covers every natural below `2^320`. -/
def natBits : Nat → Nat → Nat
  | 0, _ => 0
  | fuel + 1, n => if n = 0 then 0 else natBits fuel (n / 2) + 1

/-- `2^e` as a rational, for an integer exponent. -/
def pow2 (e : Int) : ℚ :=
  if 0 ≤ e then ((2 ^ e.toNat : Nat) : ℚ) else 1 / ((2 ^ (-e).toNat : Nat) : ℚ)

/-- Floor of the base-2 logarithm of a positive rational. -/
def log2floor (q : ℚ) : Int :=
  let bn : Int := natBits 320 q.num.toNat
  let bd : Int := natBits 320 q.den
  let L0 : Int := bn - bd
  if pow2 L0 ≤ q then L0 else L0 - 1

/-- Round a rational to the nearest integer, ties to even. -/
def rne (m : ℚ) : Int :=
  let fl : Int := m.floor
  let fr : ℚ := m - (fl : ℚ)
  if fr < 1 / 2 then fl
  else if 1 / 2 < fr then fl + 1
  else if fl % 2 = 0 then fl else fl + 1

/-- Round a positive rational to binary64 (53-bit significand,
round-to-nearest, ties-to-even); exact on the normal range. -/
def roundPos (q : ℚ) : ℚ :=
  let e : Int := log2floor q - 52
  ((rne (q * pow2 (-e)) : ℚ)) * pow2 e

/-- Round a rational to binary64, round-to-nearest, ties-to-even.
Exact IEEE-754 binary64 rounding for results in the normal range, which
covers every value computed by the notebook. -/
def round64 (q : ℚ) : ℚ :=
  if q = 0 then 0 else if 0 < q then roundPos q else -roundPos (-q)

/-- binary64 addition: the exact sum, rounded. -/
def fpAdd (x y : ℚ) : ℚ := round64 (x + y)

/-- binary64 subtraction: the exact difference, rounded. -/
def fpSub (x y : ℚ) : ℚ := round64 (x - y)

/-- binary64 multiplication: the exact product, rounded. -/
def fpMul (x y : ℚ) : ℚ := round64 (x * y)

/-- binary64 division: the exact quotient, rounded. -/
def fpDiv (x y : ℚ) : ℚ := round64 (x / y)

/-- Absolute value of a float (exact, no rounding needed). -/
def fpAbs (x : ℚ) : ℚ := |x|

/-- The binary64 value of a decimal literal `num / den`. -/
def lit (num den : Nat) : ℚ := round64 ((num : ℚ) / (den : ℚ))

/-- Largest natural whose square does not exceed `n`, by fuelled bisection
(`lo` maintains `lo^2 ≤ n`, `hi` maintains `n < hi^2`). -/
def isqrtAux : Nat → Nat → Nat → Nat → Nat
  | 0, _, lo, _ => lo
  | fuel + 1, n, lo, hi =>
    if hi ≤ lo + 1 then lo
    else
      let mid := (lo + hi) / 2
      if mid * mid ≤ n then isqrtAux fuel n mid hi else isqrtAux fuel n lo mid

/-- Integer square root, `⌊√n⌋`, for naturals below `2^320`. -/
def isqrt (n : Nat) : Nat := isqrtAux 330 n 0 (n + 1)

/-- Correctly rounded binary64 square root of a nonnegative rational
(the IEEE-754 behaviour of `math.sqrt`): the real √q, rounded to the
nearest 53-bit significand, ties to even.  The rounding decision is made
by comparing squares, so no real-number computation is involved. -/
def sqrt64 (q : ℚ) : ℚ :=
  if q ≤ 0 then 0
  else
    let e : Int := (log2floor q - 104).fdiv 2
    let r : ℚ := q * pow2 (-(2 * e))
    let n0 : Nat := isqrt r.floor.toNat
    let mid : ℚ := ((n0 : ℚ) + 1 / 2) ^ 2
    let n : Nat :=
      if r < mid then n0
      else if mid < r then n0 + 1
      else if n0 % 2 = 0 then n0 else n0 + 1
    (n : ℚ) * pow2 e

end FloatModel

namespace Notebook

open FloatModel

/-! ### Example 1 — equality test for two floats (notebook cells 2 and 4) -/

namespace Example1

/-- `x = 1.1 + 2.2` (cell 2). -/
def x : ℚ := fpAdd (lit 11 10) (lit 22 10)

/-- `eps = 1.e-12` (cell 4). -/
def eps : ℚ := lit 1 1000000000000

end Example1

/-! ### Example 2 — subtracting two close numbers (notebook cell 6) -/

namespace Example2

/-- `delta = 1.e-14`. -/
def delta : ℚ := lit 1 100000000000000

/-- `x = 1.` (exactly representable). -/
def x : ℚ := 1

/-- `y = 1. + delta * sqrt(2)`. -/
def y : ℚ := fpAdd 1 (fpMul delta (sqrt64 2))

/-- `res = (1./delta)*(y-x)`. -/
def res : ℚ := fpMul (fpDiv 1 delta) (fpSub y x)

end Example2

/-! ### Example 3 — roots of the quadratic equation (notebook cells 9, 11) -/

namespace Example3

/-- `a = 1.e-4`. -/
def a : ℚ := lit 1 10000

/-- `b = 1.e4` (exactly representable). -/
def b : ℚ := 10000

/-- `c = 1.e-4`. -/
def c : ℚ := lit 1 10000

/-- The discriminant expression `b*b - 4.*a*c` as evaluated
left-to-right in binary64. -/
def disc : ℚ := fpSub (fpMul b b) (fpMul (fpMul 4 a) c)

/-- `sqrt(b*b - 4.*a*c)`. -/
def sqrtDisc : ℚ := sqrt64 disc

/-- Cell 9: `x1 = (-b + sqrt(b*b - 4.*a*c)) / (2.*a)` (standard form). -/
def x1_first : ℚ := fpDiv (fpAdd (-b) sqrtDisc) (fpMul 2 a)

/-- Cell 9: `x2 = (-b - sqrt(b*b - 4.*a*c)) / (2.*a)` (standard form). -/
def x2_first : ℚ := fpDiv (fpSub (-b) sqrtDisc) (fpMul 2 a)

/-- Cell 11: `x1 = 2*c / (-b - sqrt(b*b-4.*a*c))` (alternate form). -/
def x1_second : ℚ := fpDiv (fpMul 2 c) (fpSub (-b) sqrtDisc)

/-- Cell 11: `x2 = 2*c / (-b + sqrt(b*b-4.*a*c))` (alternate form). -/
def x2_second : ℚ := fpDiv (fpMul 2 c) (fpAdd (-b) sqrtDisc)

end Example3

/-! ### Example 4 — numerical derivative sweep (notebook cell 14) -/

namespace Example4

/-- `def f(x): return x*(x-1.)`. -/
def f (x : ℚ) : ℚ := fpMul x (fpSub x 1)

/-- `def df_exact(x): return 2.*x - 1.`. -/
def df_exact (x : ℚ) : ℚ := fpSub (fpMul 2 x) 1

/-- `def df_numeric(x,h): return (f(x+h) - f(x)) / h`. -/
def df_numeric (x h : ℚ) : ℚ := fpDiv (fpSub (f (fpAdd x h)) (f x)) h

/-- `x0 = 1.`. -/
def x0 : ℚ := 1

/-- Python `10**i`: an exact integer for `i ≥ 0`, and for `i < 0` a float,
the correctly rounded binary64 value of `10^i` (which CPython produces for
every exponent used by the sweep). -/
def pow10 (i : Int) : ℚ :=
  if 0 ≤ i then ((10 ^ i.toNat : Nat) : ℚ)
  else round64 (1 / ((10 ^ (-i).toNat : Nat) : ℚ))

/-- Python `range(start, stop, step)` as a list of integers
(empty when `step = 0`, where Python instead raises). -/
def pyRange (start stop step : Int) : List Int :=
  if step = 0 then []
  else
    let len : Int :=
      if 0 < step then (stop - start + step - 1).fdiv step
      else (start - stop - step - 1).fdiv (-step)
    (List.range len.toNat).map (fun k => start + k * step)

/-- The three accumulator lists of the sweep loop. -/
structure SweepState where
  arr_h : List ℚ
  arr_df : List ℚ
  arr_err : List ℚ
  deriving DecidableEq

/-- One iteration of the loop body of cell 14:
`h = 10**i`, `df_val = df_numeric(x0,h)`,
`df_err = abs(df_numeric(x0,h) - df_exact(x0)) / df_exact(x0)`,
followed by the three appends. -/
def sweepStep (st : SweepState) (i : Int) : SweepState :=
  let h := pow10 i
  let df_val := df_numeric x0 h
  let df_err := fpDiv (fpAbs (fpSub (df_numeric x0 h) (df_exact x0))) (df_exact x0)
  ⟨st.arr_h ++ [h], st.arr_df ++ [df_val], st.arr_err ++ [df_err]⟩

/-- The sweep loop run over an arbitrary list of exponents,
starting from the empty accumulators. -/
def runSweep (is : List Int) : SweepState :=
  is.foldl sweepStep ⟨[], [], []⟩

/-- The sweep as written: `for i in range(0,-20,-1)`. -/
def sweep : SweepState := runSweep (pyRange 0 (-20) (-1))

/-- The relative-error expression of the loop body, as a function of the
derivative value it is computed from:
`abs(d - df_exact(x0)) / df_exact(x0)` in binary64. -/
def errOf (d : ℚ) : ℚ := fpDiv (fpAbs (fpSub d (df_exact x0))) (df_exact x0)

/-- The loop invariant of the sweep: the three accumulator lists stay in
lockstep, and every stored error is the error expression of the stored
derivative value. -/
def SweepInv (st : SweepState) : Prop :=
  st.arr_h.length = st.arr_df.length ∧
  st.arr_df.length = st.arr_err.length ∧
  st.arr_err = st.arr_df.map errOf

end Example4

end Notebook

/-!
### Cell-dependency model (Example independence)

The notebook's four examples share one Python interpreter state.  To settle
the independence claim we model each code cell by the set of global names it
reads before defining them (builtins excluded, since those are always
available) and the set of global names it binds.  Running a cell fails —
Python raises `NameError` — when some read name is not yet bound.
-/

namespace CellModel

/-- A code cell, abstracted to the global names it reads before binding
them and the global names it binds. -/
structure Cell where
  reads : List String
  writes : List String

/-- Run one cell: fails (Python `NameError`) when a read name is unbound,
otherwise binds the cell's written names. -/
def runCell (env : List String) (c : Cell) : Option (List String) :=
  if ∀ n ∈ c.reads, n ∈ env then some (env ++ c.writes) else none

/-- Run a list of cells in order, stopping at the first failure. -/
def runCells : List Cell → List String → Option (List String)
  | [], env => some env
  | c :: cs, env =>
    match runCell env c with
    | none => none
    | some e => runCells cs e

/-- The names a cell sequence reads that are bound neither in `defined`
nor by an earlier cell of the sequence: its external reads. -/
def extReads : List Cell → List String → List String
  | [], _ => []
  | c :: cs, defined =>
    c.reads.filter (fun n => decide (n ∉ defined)) ++ extReads cs (defined ++ c.writes)

/-- All names bound by a cell sequence, in order. -/
def writesOf : List Cell → List String
  | [] => []
  | c :: cs => c.writes ++ writesOf cs

/-- Cell 2: `x = 1.1 + 2.2` and prints. -/
def cell2 : Cell := ⟨[], ["x"]⟩

/-- Cell 4: reads `x`, binds `eps`, prints the epsilon-tolerant test. -/
def cell4 : Cell := ⟨["x"], ["eps"]⟩

/-- Cell 6: `from math import sqrt`, then binds `delta`, `x`, `y`, `res`. -/
def cell6 : Cell := ⟨[], ["sqrt", "delta", "x", "y", "res"]⟩

/-- Cell 9: reads `sqrt` (imported by cell 6), binds `a`, `b`, `c`,
`x1`, `x2`. -/
def cell9 : Cell := ⟨["sqrt"], ["a", "b", "c", "x1", "x2"]⟩

/-- Cell 11: reads `sqrt`, `a`, `b`, `c`, rebinds `x1`, `x2`. -/
def cell11 : Cell := ⟨["sqrt", "a", "b", "c"], ["x1", "x2"]⟩

/-- Cell 14: defines `f`, `df_exact`, `df_numeric`, `x0`, the three arrays
and the loop variables; reads nothing external. -/
def cell14 : Cell :=
  ⟨[], ["f", "df_exact", "df_numeric", "x0", "arr_h", "arr_df", "arr_err",
        "i", "h", "df_val", "df_err"]⟩

/-- Cell 16: imports matplotlib as `plt`, binds `params`, reads the
arrays `arr_h` and `arr_err` filled by cell 14. -/
def cell16 : Cell := ⟨["arr_h", "arr_err"], ["plt", "params"]⟩

/-- The cells of Example 1. -/
def example1 : List Cell := [cell2, cell4]

/-- The cells of Example 2. -/
def example2 : List Cell := [cell6]

/-- The cells of Example 3. -/
def example3 : List Cell := [cell9, cell11]

/-- The cells of Example 4. -/
def example4 : List Cell := [cell14, cell16]

/-- The whole notebook, run top to bottom. -/
def script : List Cell := example1 ++ example2 ++ example3 ++ example4

end CellModel

/-!
### Exact-arithmetic reading

The claims about algebraic identities speak of exact real arithmetic; the
expressions of the notebook are re-read over `ℝ`, with the same shapes.
-/

namespace Exact

/-- Standard-form root `x1 = (-b + sqrt(b*b - 4*a*c)) / (2*a)` (cell 9),
in exact real arithmetic. -/
noncomputable def x1_std (a b c : ℝ) : ℝ :=
  (-b + Real.sqrt (b * b - 4 * a * c)) / (2 * a)

/-- Standard-form root `x2 = (-b - sqrt(b*b - 4*a*c)) / (2*a)` (cell 9),
in exact real arithmetic. -/
noncomputable def x2_std (a b c : ℝ) : ℝ :=
  (-b - Real.sqrt (b * b - 4 * a * c)) / (2 * a)

/-- Alternate-form root `x1 = 2*c / (-b - sqrt(b*b - 4*a*c))` (cell 11),
in exact real arithmetic. -/
noncomputable def x1_alt (a b c : ℝ) : ℝ :=
  2 * c / (-b - Real.sqrt (b * b - 4 * a * c))

/-- Alternate-form root `x2 = 2*c / (-b + sqrt(b*b - 4*a*c))` (cell 11),
in exact real arithmetic. -/
noncomputable def x2_alt (a b c : ℝ) : ℝ :=
  2 * c / (-b + Real.sqrt (b * b - 4 * a * c))

/-- `f(x) = x*(x-1.)` of Example 4, in exact real arithmetic. -/
noncomputable def f (x : ℝ) : ℝ := x * (x - 1)

/-- `df_exact(x) = 2.*x - 1.` of Example 4, in exact real arithmetic. -/
noncomputable def df_exact (x : ℝ) : ℝ := 2 * x - 1

/-- `df_numeric(x,h) = (f(x+h) - f(x)) / h` of Example 4, in exact real
arithmetic. -/
noncomputable def df_numeric (x h : ℝ) : ℝ := (f (x + h) - f x) / h

/-- `y = 1. + delta * sqrt(2)` of Example 2, in exact real arithmetic. -/
noncomputable def y (delta : ℝ) : ℝ := 1 + delta * Real.sqrt 2

/-- `res = (1./delta)*(y-x)` of Example 2 with `x = 1.`, in exact real
arithmetic. -/
noncomputable def res (delta : ℝ) : ℝ := (1 / delta) * (y delta - 1)

end Exact


/-!
## Claim theorems
-/

section Claims

open FloatModel Notebook

/-- Helper: under the hypotheses of the quadratic examples, the two
denominators of the alternate root forms are nonzero. -/
lemma alt_denoms_ne_zero (a b c : ℝ) (ha : a ≠ 0) (hc : c ≠ 0)
    (hD : b ^ 2 - 4 * a * c ≥ 0) :
    -b - Real.sqrt (b * b - 4 * a * c) ≠ 0 ∧
    -b + Real.sqrt (b * b - 4 * a * c) ≠ 0 := by
  have hD' : 0 ≤ b * b - 4 * a * c := by nlinarith
  have hs : Real.sqrt (b * b - 4 * a * c) ^ 2 = b * b - 4 * a * c :=
    Real.sq_sqrt hD'
  constructor
  · intro h0
    have hsb : Real.sqrt (b * b - 4 * a * c) = -b := by linarith
    have hac : a * c = 0 := by
      have := hs
      rw [hsb] at this
      nlinarith
    rcases mul_eq_zero.mp hac with h | h
    · exact ha h
    · exact hc h
  · intro h0
    have hsb : Real.sqrt (b * b - 4 * a * c) = b := by linarith
    have hac : a * c = 0 := by
      have := hs
      rw [hsb] at this
      nlinarith
    rcases mul_eq_zero.mp hac with h | h
    · exact ha h
    · exact hc h

/-- C1: the two quadratic-root forms of Example 3 are algebraically
equivalent in exact real arithmetic: for all `a b c` with `a ≠ 0`, `c ≠ 0`
and nonnegative discriminant, `(-b + √(b²-4ac))/(2a) = 2c/(-b - √(b²-4ac))`
and `(-b - √(b²-4ac))/(2a) = 2c/(-b + √(b²-4ac))`. -/
theorem quad_root_forms_equiv (a b c : ℝ) (ha : a ≠ 0) (hc : c ≠ 0)
    (hD : b ^ 2 - 4 * a * c ≥ 0) :
    Exact.x1_std a b c = Exact.x1_alt a b c ∧
    Exact.x2_std a b c = Exact.x2_alt a b c := by
  have hD' : 0 ≤ b * b - 4 * a * c := by nlinarith
  have hs : Real.sqrt (b * b - 4 * a * c) ^ 2 = b * b - 4 * a * c :=
    Real.sq_sqrt hD'
  obtain ⟨hden1, hden2⟩ := alt_denoms_ne_zero a b c ha hc hD
  have h2a : (2 : ℝ) * a ≠ 0 := mul_ne_zero two_ne_zero ha
  constructor
  · unfold Exact.x1_std Exact.x1_alt
    rw [div_eq_div_iff h2a hden1]
    linear_combination (-1 : ℝ) * hs
  · unfold Exact.x2_std Exact.x2_alt
    rw [div_eq_div_iff h2a hden2]
    linear_combination (-1 : ℝ) * hs

/-- Witness for C1 at `a = 1`, `b = 3`, `c = 2` (roots `-1` and `-2`). -/
theorem quad_root_forms_equiv_witness :
    (1 : ℝ) ≠ 0 ∧ (2 : ℝ) ≠ 0 ∧ ((3 : ℝ) ^ 2 - 4 * 1 * 2 ≥ 0) ∧
    (Exact.x1_std 1 3 2 = Exact.x1_alt 1 3 2 ∧
     Exact.x2_std 1 3 2 = Exact.x2_alt 1 3 2) :=
  ⟨one_ne_zero, two_ne_zero, by norm_num,
   quad_root_forms_equiv 1 3 2 one_ne_zero two_ne_zero (by norm_num)⟩

/-- C2: for `f(x) = x(x-1)` the finite difference has truncation error
exactly `h` in exact real arithmetic: `df_numeric(x,h) = 2x - 1 + h
= df_exact(x) + h` for every `h ≠ 0`, and at `x = 1` the error
`df_numeric(1,h) - df_exact(1)` is exactly `h`. -/
theorem finite_difference_truncation (x h : ℝ) (hh : h ≠ 0) :
    Exact.df_numeric x h = 2 * x - 1 + h ∧
    Exact.df_numeric x h = Exact.df_exact x + h ∧
    Exact.df_numeric 1 h - Exact.df_exact 1 = h := by
  have key : ∀ z : ℝ, Exact.df_numeric z h = 2 * z - 1 + h := by
    intro z
    unfold Exact.df_numeric Exact.f
    field_simp
    ring
  refine ⟨key x, ?_, ?_⟩
  · rw [key x]
    unfold Exact.df_exact
    ring
  · rw [key 1]
    unfold Exact.df_exact
    ring

/-- Witness for C2 at `x = 1`, `h = 1`. -/
theorem finite_difference_truncation_witness :
    (1 : ℝ) ≠ 0 ∧
    (Exact.df_numeric 1 1 = 2 * 1 - 1 + 1 ∧
     Exact.df_numeric 1 1 = Exact.df_exact 1 + 1 ∧
     Exact.df_numeric 1 1 - Exact.df_exact 1 = 1) :=
  ⟨one_ne_zero, finite_difference_truncation 1 1 one_ne_zero⟩

/-- C3: the values produced by the standard quadratic formula are roots:
whenever `a ≠ 0` and the discriminant is nonnegative, each of
`x1_std` and `x2_std` satisfies `a·x² + b·x + c = 0` in exact real
arithmetic. -/
theorem quad_formula_gives_roots (a b c : ℝ) (ha : a ≠ 0)
    (hD : b ^ 2 - 4 * a * c ≥ 0) :
    a * Exact.x1_std a b c ^ 2 + b * Exact.x1_std a b c + c = 0 ∧
    a * Exact.x2_std a b c ^ 2 + b * Exact.x2_std a b c + c = 0 := by
  have hD' : 0 ≤ b * b - 4 * a * c := by nlinarith
  have hs : Real.sqrt (b * b - 4 * a * c) ^ 2 = b * b - 4 * a * c :=
    Real.sq_sqrt hD'
  have h2a : (2 : ℝ) * a ≠ 0 := mul_ne_zero two_ne_zero ha
  constructor
  · unfold Exact.x1_std
    field_simp
    linear_combination 2 * a ^ 2 * hs
  · unfold Exact.x2_std
    field_simp
    linear_combination 2 * a ^ 2 * hs

/-- Witness for C3 at `a = 1`, `b = 3`, `c = 2`. -/
theorem quad_formula_gives_roots_witness :
    (1 : ℝ) ≠ 0 ∧ ((3 : ℝ) ^ 2 - 4 * 1 * 2 ≥ 0) ∧
    (1 * Exact.x1_std 1 3 2 ^ 2 + 3 * Exact.x1_std 1 3 2 + 2 = 0 ∧
     1 * Exact.x2_std 1 3 2 ^ 2 + 3 * Exact.x2_std 1 3 2 + 2 = 0) :=
  ⟨one_ne_zero, by norm_num, quad_formula_gives_roots 1 3 2 one_ne_zero (by norm_num)⟩

/-- C4: the analytic identity of Example 2 holds in exact real arithmetic:
for `δ ≠ 0`, with `x = 1` and `y = 1 + δ·√2`, `(1/δ)·(y − x) = √2`. -/
theorem cancellation_identity (delta : ℝ) (hd : delta ≠ 0) :
    Exact.res delta = Real.sqrt 2 := by
  unfold Exact.res Exact.y
  field_simp

/-- Witness for C4 at `δ = 1`. -/
theorem cancellation_identity_witness :
    (1 : ℝ) ≠ 0 ∧ Exact.res 1 = Real.sqrt 2 :=
  ⟨one_ne_zero, cancellation_identity 1 one_ne_zero⟩

/-- C5: in the exact binary64 model, `x = 1.1 + 2.2` fails the equality
test `x == 3.3`, while the epsilon-tolerant comparison
`abs(x - 3.3) < eps` with `eps = 1.e-12` succeeds. -/
theorem ex1_equality_vs_epsilon :
    Example1.x ≠ lit 33 10 ∧
    fpAbs (fpSub Example1.x (lit 33 10)) < Example1.eps := by
  decide

end Claims

section MoreClaims

open FloatModel Notebook

/-- Helper: a cell whose reads are all bound runs successfully and binds
its writes. -/
lemma runCell_reads_ok (env : List String) (c : CellModel.Cell)
    (h : ∀ n ∈ c.reads, n ∈ env) :
    CellModel.runCell env c = some (env ++ c.writes) := by
  unfold CellModel.runCell
  rw [if_pos h]

/-- Helper: a cell sequence with no external reads (relative to `defined`)
runs successfully from any environment containing `defined`, and the final
environment is the initial one extended by exactly the sequence's writes —
the two-run noninterference core: success and bound names are independent
of the prior interpreter state. -/
lemma runCells_selfContained (cs : List CellModel.Cell) :
    ∀ defined env : List String, CellModel.extReads cs defined = [] →
      (∀ n, n ∈ defined → n ∈ env) →
      CellModel.runCells cs env = some (env ++ CellModel.writesOf cs) := by
  induction cs with
  | nil =>
    intro defined env _ _
    simp [CellModel.runCells, CellModel.writesOf]
  | cons c cs ih =>
    intro defined env hext hsub
    rw [CellModel.extReads] at hext
    have h1 : c.reads.filter (fun n => decide (n ∉ defined)) = [] :=
      (List.append_eq_nil.mp hext).1
    have h2 : CellModel.extReads cs (defined ++ c.writes) = [] :=
      (List.append_eq_nil.mp hext).2
    have hreads : ∀ n ∈ c.reads, n ∈ env := by
      intro n hn
      by_cases hd : n ∈ defined
      · exact hsub n hd
      · exfalso
        have hmem : n ∈ c.reads.filter (fun n => decide (n ∉ defined)) :=
          List.mem_filter.mpr ⟨hn, by simpa using hd⟩
        rw [h1] at hmem
        exact List.not_mem_nil n hmem
    have hsub2 : ∀ n, n ∈ defined ++ c.writes → n ∈ env ++ c.writes := by
      intro n hn
      rcases List.mem_append.mp hn with h | h
      · exact List.mem_append_left _ (hsub n h)
      · exact List.mem_append_right _ h
    rw [CellModel.runCells, runCell_reads_ok env c hreads]
    show CellModel.runCells cs (env ++ c.writes) =
      some (env ++ CellModel.writesOf (c :: cs))
    rw [ih (defined ++ c.writes) (env ++ c.writes) h2 hsub2]
    simp [CellModel.writesOf, List.append_assoc]

/-- C7 counterexample: running Example 3's cells alone from an empty
interpreter state fails (cell 9 reads `sqrt`, which only Example 2's
`from math import sqrt` binds), while the full sequential script
succeeds — so Example 3 alone does not reproduce its in-script printed
output, and the four examples are not all self-contained. -/
theorem example3_alone_fails :
    CellModel.runCells CellModel.example3 [] = none ∧
    (CellModel.runCells CellModel.script []).isSome = true := by
  decide

/-- C7 amended: Examples 1, 2 and 4 are self-contained — each reads no
name bound outside itself, so run from any interpreter state it succeeds
and binds exactly its own names, reproducing its in-script behaviour —
but Example 3 is not: both of its cells read `sqrt`, bound only by
Example 2's import, and running Example 3's cells alone fails with a
`NameError`. -/
theorem examples_self_containment :
    (∀ env, CellModel.runCells CellModel.example1 env =
      some (env ++ CellModel.writesOf CellModel.example1)) ∧
    (∀ env, CellModel.runCells CellModel.example2 env =
      some (env ++ CellModel.writesOf CellModel.example2)) ∧
    (∀ env, CellModel.runCells CellModel.example4 env =
      some (env ++ CellModel.writesOf CellModel.example4)) ∧
    CellModel.extReads CellModel.example1 [] = [] ∧
    CellModel.extReads CellModel.example2 [] = [] ∧
    CellModel.extReads CellModel.example4 [] = [] ∧
    CellModel.extReads CellModel.example3 [] = ["sqrt", "sqrt"] ∧
    CellModel.runCells CellModel.example3 [] = none :=
  ⟨fun env => runCells_selfContained _ [] env (by decide)
      (fun n hn => absurd hn (List.not_mem_nil n)),
   fun env => runCells_selfContained _ [] env (by decide)
      (fun n hn => absurd hn (List.not_mem_nil n)),
   fun env => runCells_selfContained _ [] env (by decide)
      (fun n hn => absurd hn (List.not_mem_nil n)),
   by decide, by decide, by decide, by decide, by decide⟩

/-- C8: no division in the script divides by zero, in the exact binary64
model: `delta` of Example 2, the denominators `2.*a`, `-b - sqrt(b*b-4*a*c)`
and `-b + sqrt(b*b-4*a*c)` of Example 3, every step `h = 10**i` of the
Example 4 sweep, and `df_exact(x0)` are all nonzero. -/
theorem no_division_by_zero :
    Example2.delta ≠ 0 ∧
    fpMul 2 Example3.a ≠ 0 ∧
    fpSub (-Example3.b) Example3.sqrtDisc ≠ 0 ∧
    fpAdd (-Example3.b) Example3.sqrtDisc ≠ 0 ∧
    (0 : ℚ) ∉ (Example4.pyRange 0 (-20) (-1)).map Example4.pow10 ∧
    Example4.df_exact Example4.x0 ≠ 0 := by
  decide

/-- C9 counterexample: at loop index `i = -1` the stored step size is the
binary64 float `0.1`, which is not the real number `10^(-1) = 1/10`; so
`h` does not take "exactly the values 10^i". -/
theorem sweep_h_not_exact_powers :
    Example4.sweep.arr_h[1]? = some (3602879701896397 / 36028797018963968 : ℚ) ∧
    Example4.sweep.arr_h[1]? ≠ some ((1 : ℚ) / 10) := by
  decide

/-- C9 amended: the sweep runs exactly 20 iterations, over
`i = 0, -1, …, -19` in that order; `h` takes the binary64 value of `10^i`
at each step (exactly `10^i` only for `i = 0`), these values are strictly
decreasing, and afterwards each of `arr_h`, `arr_df`, `arr_err` has length
exactly 20. -/
theorem sweep_structure :
    Example4.pyRange 0 (-20) (-1) =
      [0, -1, -2, -3, -4, -5, -6, -7, -8, -9, -10, -11, -12, -13, -14,
       -15, -16, -17, -18, -19] ∧
    Example4.sweep.arr_h = (Example4.pyRange 0 (-20) (-1)).map Example4.pow10 ∧
    Example4.sweep.arr_h.length = 20 ∧
    Example4.sweep.arr_df.length = 20 ∧
    Example4.sweep.arr_err.length = 20 ∧
    Example4.sweep.arr_h.Pairwise (· > ·) := by
  decide

/-- Helper: one iteration of the sweep loop preserves the loop
invariant. -/
lemma sweepStep_inv (st : Example4.SweepState) (i : Int)
    (h : Example4.SweepInv st) : Example4.SweepInv (Example4.sweepStep st i) := by
  obtain ⟨h1, h2, h3⟩ := h
  unfold Example4.SweepInv Example4.sweepStep
  refine ⟨by simp [h1], by simp [h2], ?_⟩
  simp only [List.map_append, ← h3]
  rfl

/-- Helper: the sweep invariant holds after folding the loop body over any
exponent list. -/
lemma sweepInv_fold :
    ∀ (is : List Int) (st : Example4.SweepState), Example4.SweepInv st →
      Example4.SweepInv (is.foldl Example4.sweepStep st) := by
  intro is
  induction is with
  | nil => intro st h; simpa using h
  | cons i is ih =>
    intro st h
    simp only [List.foldl_cons]
    exact ih _ (sweepStep_inv st i h)

/-- C10: after every iteration of the sweep (equivalently, after running
the loop over any exponent list) the three accumulator lists have equal
length and every stored error equals the error expression applied to the
stored derivative value — the recomputed `df_numeric(x0,h)` inside
`df_err` coincides with the stored `df_val` since `df_numeric` is
deterministic; in the actual run, each stored error moreover equals
`|arr_df[k] − df_exact(x0)| / df_exact(x0)` with exact absolute value and
division. -/
theorem sweep_invariant :
    (∀ is : List Int, Example4.SweepInv (Example4.runSweep is)) ∧
    Example4.sweep.arr_err =
      Example4.sweep.arr_df.map
        (fun d => |d - Example4.df_exact Example4.x0| / Example4.df_exact Example4.x0) := by
  constructor
  · intro is
    exact sweepInv_fold is ⟨[], [], []⟩ ⟨rfl, rfl, rfl⟩
  · decide

end MoreClaims

/-!
## Model validation

The binary64 model is checked against the notebook's actual printed
values (each right-hand side below is the exact rational value of the
corresponding Python float).
-/

section Validation

open FloatModel Notebook

example : CellModel.runCells CellModel.example3 [] = none := by decide
example : (CellModel.runCells CellModel.script []).isSome = true := by decide
example : CellModel.extReads CellModel.example3 [] = ["sqrt", "sqrt"] := by decide
example : CellModel.extReads CellModel.example1 [] = [] := by decide
example : lit 11 10 = 2476979795053773 / 2251799813685248 := by decide
example : fpAdd (lit 11 10) (lit 22 10) = 7430939385161319 / 2251799813685248 := by decide
example : sqrt64 (6710886399999997 / 67108864) = 5497558138879999 / 549755813888 := by decide
example : Example3.disc = 6710886399999997 / 67108864 := by decide
example : Example3.x1_first = -625 / 68719476736 := by decide
example : Example3.x2_first = -100000000 := by decide
example : Example3.x1_second = -3022314549036573 / 302231454903657293676544 := by decide
example : Example3.x2_second = -7378697629483821 / 67108864 := by decide
example : Example4.pyRange 0 (-20) (-1) = [0, -1, -2, -3, -4, -5, -6, -7, -8, -9, -10, -11, -12, -13, -14, -15, -16, -17, -18, -19] := by decide
example : Example2.res = 6103515625 / 4294967296 := by decide
example : Example2.y = 70368744177665 / 70368744177664 := by decide
example : Example4.df_numeric Example4.x0 (Example4.pow10 (-1)) = 2476979795053775 / 2251799813685248 := by decide
example : Example4.df_numeric Example4.x0 (Example4.pow10 (-16)) = 0 := by decide

end Validation
